import Mathlib

/-!
Verification of `reclient_cfgs/configure_reclient_cfgs.py` (chromium buildtools).

This file gives a shallow embedding of the script into Lean.  Pure string
processing (the `gclient revinfo` parsing in `NaclRevision`, the regex match in
`RbeProjectFromInstance`, the `string.Template` substitution used by
`GenerateReproxyCfg`) is translated function-by-function from the source.
Interactions with the outside world (filesystem contents, the `cipd` binary,
the platform, the clang helper module) are modelled by an explicit `World`
record of oracles, and `main` becomes a pure function from parsed arguments and
a world to an exit code, the final content of the `reproxy.cfg` output path,
and a trace of the externally visible events it performed (package fetches,
directory creation, file copies, the authentication prompt).

Uncaught Python exceptions (`TypeError` from `posixpath.join` with `None`,
`KeyError`/`ValueError` from `Template.substitute`) are modelled with `Except`.
-/

/-- Uncaught Python exceptions that the modelled code can raise. -/
inductive PyErr where
  | typeError   : PyErr
  | keyError    : String → PyErr
  | valueError  : PyErr
deriving DecidableEq, Repr

/-- Python truthiness of an optional string: `None` and the empty string are
falsy (`if not x:` in the source). -/
def pyFalsy (o : Option String) : Bool :=
  match o with
  | none => true
  | some s => s = ""

/-- Python `str()` applied to an optional string value: `None` prints as
`"None"` (this is what `string.Template.substitute` does to a `None` mapping
value). -/
def pyStr (o : Option String) : String :=
  match o with
  | none => "None"
  | some s => s

/-! ### Splitting a character list at every occurrence of a separator

Models Python `str.split(sep)` for a one-character separator, used by
`NaclRevision` (`revinfo.split("@")`) and to express the anchored regex of
`RbeProjectFromInstance` (whose pieces cannot contain `/`). -/

/-- Split a character list at every occurrence of `sep` (Python
`s.split(sep)` for a single-character separator; always non-empty, and
`[[]]` on the empty input, like Python's `[""]`). -/
def splitCh (sep : Char) : List Char → List (List Char)
  | [] => [[]]
  | c :: cs =>
    if c = sep then [] :: splitCh sep cs
    else
      match splitCh sep cs with
      | [] => [[c]]
      | g :: gs => (c :: g) :: gs

theorem splitCh_ne_nil (sep : Char) (l : List Char) : splitCh sep l ≠ [] := by
  cases l with
  | nil => simp [splitCh]
  | cons c cs =>
    simp only [splitCh]
    split
    · simp
    · cases h : splitCh sep cs <;> simp

/-- Splitting a separator-free list is the identity (one group). -/
theorem splitCh_of_not_mem {sep : Char} {l : List Char} (h : sep ∉ l) :
    splitCh sep l = [l] := by
  induction l with
  | nil => rfl
  | cons c cs ih =>
    have hc : ¬ c = sep := fun hc => h (hc ▸ List.mem_cons_self c cs)
    have hcs : sep ∉ cs := fun hm => h (List.mem_cons_of_mem _ hm)
    simp [splitCh, hc, ih hcs]

/-- Splitting past a leading separator-free group. -/
theorem splitCh_append {sep : Char} {l : List Char} (h : sep ∉ l) (r : List Char) :
    splitCh sep (l ++ sep :: r) = l :: splitCh sep r := by
  induction l with
  | nil => simp [splitCh]
  | cons c cs ih =>
    have hc : ¬ c = sep := fun hc => h (hc ▸ List.mem_cons_self c cs)
    have hcs : sep ∉ cs := fun hm => h (List.mem_cons_of_mem _ hm)
    simp only [List.cons_append, splitCh, if_neg hc, List.append_eq]
    rw [ih hcs]

/-- Joining with the separator, inverse of `splitCh`. -/
def joinCh (sep : Char) : List (List Char) → List Char
  | [] => []
  | [g] => g
  | g :: gs => g ++ sep :: joinCh sep gs

theorem joinCh_splitCh (sep : Char) (l : List Char) :
    joinCh sep (splitCh sep l) = l := by
  induction l with
  | nil => rfl
  | cons c cs ih =>
    simp only [splitCh]
    by_cases hc : c = sep
    · subst hc
      simp only [if_pos rfl]
      cases h : splitCh c cs with
      | nil => exact absurd h (splitCh_ne_nil c cs)
      | cons g gs =>
        rw [h] at ih
        simp [joinCh, ih]
    · simp only [if_neg hc]
      cases h : splitCh sep cs with
      | nil => exact absurd h (splitCh_ne_nil sep cs)
      | cons g gs =>
        rw [h] at ih
        cases gs with
        | nil => simp [joinCh] at ih ⊢; exact ih
        | cons g2 gs2 => simp [joinCh] at ih ⊢; exact ih

/-- Every group produced by `splitCh` is separator-free. -/
theorem splitCh_not_mem (sep : Char) (l : List Char) :
    ∀ g ∈ splitCh sep l, sep ∉ g := by
  induction l with
  | nil =>
    intro g hg
    simp only [splitCh, List.mem_singleton] at hg
    simp [hg]
  | cons c cs ih =>
    intro g hg
    by_cases hc : c = sep
    · rw [splitCh, if_pos hc] at hg
      rcases List.mem_cons.mp hg with h1 | h1
      · simp [h1]
      · exact ih g h1
    · rw [splitCh, if_neg hc] at hg
      cases h : splitCh sep cs with
      | nil => exact absurd h (splitCh_ne_nil sep cs)
      | cons g0 gs0 =>
        rw [h] at hg
        rcases List.mem_cons.mp hg with h1 | h1
        · subst h1
          intro hmem
          rcases List.mem_cons.mp hmem with h2 | h2
          · exact hc h2.symm
          · exact ih g0 (h ▸ List.mem_cons_self g0 gs0) h2
        · exact ih g (h ▸ List.mem_cons_of_mem g0 h1)

/-! ### `NaclRevision`: parsing the `gclient revinfo` output

Source (lines 74-87):
```
try:
  # We expect this format: "src/native_client: {url}@{commit}"
  commit = revinfo.split("@")[1]
  if not re.match('^[0-9a-f]{40,}$', commit):
     raise ValueError("invalid commit hash")
  return commit
except (IndexError, ValueError):
  logging.warning(...)
return None
```
Both exceptions are caught, so the parsing step is total and yields an
`Option`. -/

/-- A lowercase hexadecimal digit (`[0-9a-f]`). -/
def isLowerHex (c : Char) : Bool :=
  c.isDigit || (decide (97 ≤ c.toNat) && decide (c.toNat ≤ 102))

/-- Python `re.match(r'^[0-9a-f]\x7b40,\x7d$', s)` viewed as a Boolean: the
`$` anchor in Python also matches just before a single newline at the very end
of the string, so one trailing newline is tolerated (but not included in the
matched run). -/
def pyFullHexMatch (s : List Char) : Bool :=
  let t := if s.getLast? = some (Char.ofNat 10) then s.dropLast else s
  decide (40 ≤ t.length) && t.all isLowerHex

/-- The parsing step of `NaclRevision` applied to the (stripped) stdout of
`gclient revinfo --filter=src/native_client`: take the field between the first
and second `@` (Python `revinfo.split("@")[1]`, `IndexError` caught), check it
against `^[0-9a-f]\x7b40,\x7d$`, and return it on success; `None` otherwise.
Both failure exceptions are caught in the source, so this is a total
function — the parsing step never raises. -/
def naclParseRevinfo (revinfo : String) : Option String :=
  match (splitCh (Char.ofNat 64) revinfo.data).get? 1 with
  | none => none
  | some commit =>
    if pyFullHexMatch commit then some (String.mk commit) else none

/-! ### `RbeProjectFromInstance`

Source (lines 126-130):
```
m = re.fullmatch(r'projects/([-\w]+)/instances/[-\w]+', instance)
if not m:
    return None
return m.group(1)
```
`\w` is modelled by its ASCII fragment (letters, digits, underscore); the
character class `[-\w]` contains no `/`, so the regex matches exactly when
splitting on `/` yields the four groups below. -/

/-- ASCII fragment of the regex class `[-\w]`: word characters and hyphen. -/
def wordOrHyphen (c : Char) : Bool :=
  c.isAlphanum || c = Char.ofNat 95 || c = Char.ofNat 45

/-- `RbeProjectFromInstance` from the source: full-match the instance string
against `projects/([-\w]+)/instances/[-\w]+` and return the captured project,
or `None` when the string does not fully match. -/
def RbeProjectFromInstance (inst : String) : Option String :=
  match splitCh (Char.ofNat 47) inst.data with
  | [a, p, b, i] =>
    if a = ("projects").data ∧ b = ("instances").data ∧
        p ≠ [] ∧ p.all wordOrHyphen ∧ i ≠ [] ∧ i.all wordOrHyphen then
      some (String.mk p)
    else none
  | _ => none

example : RbeProjectFromInstance ("projects/my-proj/instances/default_instance")
    = some ("my-proj") := by decide

example : RbeProjectFromInstance ("projects/a/b/instances/c") = none := by decide

example : naclParseRevinfo
    ("src/native_client: https://chromium.googlesource.com/native_client@aaaaaaaaaaaaaaaaaaaaaaaaaaaaaaaaaaaaaaaa")
    = some ("aaaaaaaaaaaaaaaaaaaaaaaaaaaaaaaaaaaaaaaa") := by decide

example : naclParseRevinfo ("src/native_client: https://x@abc") = none := by decide

/-! ### `CipdEnsure` and `IsCipdLoggedIn`

Source (lines 95-124).  The external `cipd ensure` invocation either succeeds
or fails with captured output; on failure the script probes `cipd auth-info`
and raises `CipdAuthError(e.output)` when the probe's return code is nonzero,
`CipdError(e.output)` otherwise.  The outcome of the external commands is an
input of the model. -/

/-- Outcome of `CipdEnsure`: normal return, or one of the two typed errors of
the source (`CipdAuthError` is a subclass of `CipdError`; the model keeps them
as distinct constructors, matching the two distinct `raise` statements).
Both errors carry the captured output of the failed ensure command. -/
inductive CipdResult where
  | ok : CipdResult
  | authError (output : String) : CipdResult
  | cipdError (output : String) : CipdResult
deriving DecidableEq, Repr

/-- `IsCipdLoggedIn` from the source: run `cipd auth-info` and report whether
its return code is zero.  The return code is the model's input. -/
def IsCipdLoggedIn (authRc : Nat) : Bool :=
  authRc == 0

/-- `CipdEnsure` from the source: `ensureOk`/`output` describe the outcome of
the external `cipd ensure` command and `authRc` is the return code of the
`cipd auth-info` probe that is consulted only on failure. -/
def CipdEnsure (ensureOk : Bool) (output : String) (authRc : Nat) : CipdResult :=
  if ensureOk then .ok
  else if ¬ IsCipdLoggedIn authRc then .authError output
  else .cipdError output

/-! ### `string.Template.substitute`

`GenerateReproxyCfg` renders `string.Template(REPROXY_CFG_HEADER + f.read())`
with a five-key mapping.  The default `Template` pattern is
`\$(?:(?P<escaped>\$)|(?P<named>(?a:[_a-zA-Z][_a-zA-Z0-9]*))|\x7b(?P<braced>...)\x7d|(?P<invalid>))`;
`substitute` replaces `$$` by `$`, replaces `$name` and `$\x7bname\x7d` by
`str(mapping[name])` (raising `KeyError` when the key is absent), and raises
`ValueError` on an invalid `$` placeholder.  Identifier characters are ASCII
(`(?a:...)` in the idpattern). -/

/-- First character of a `string.Template` identifier: `[_a-zA-Z]`. -/
def isIdStart (c : Char) : Bool :=
  c.isAlpha || c = Char.ofNat 95

/-- Continuation character of a `string.Template` identifier: `[_a-zA-Z0-9]`. -/
def isIdCont (c : Char) : Bool :=
  c.isAlphanum || c = Char.ofNat 95

theorem length_dropWhile_le (p : Char → Bool) (l : List Char) :
    (l.dropWhile p).length ≤ l.length := by
  induction l with
  | nil => simp
  | cons c cs ih =>
    rw [List.dropWhile_cons]
    split
    · exact le_trans ih (by simp)
    · simp

theorem length_tail_le (l : List Char) : l.tail.length ≤ l.length := by
  cases l <;> simp

/-- `Template.substitute` with mapping `m`, on the character list of the
template.  `Char.ofNat 36` is `$`, `Char.ofNat 123`/`125` are the braces.
Scanning is left to right; `$name` takes the maximal identifier run, exactly
as the greedy regex does. -/
def substTemplate (m : String → Option String) : List Char → Except PyErr (List Char)
  | [] => .ok []
  | c :: rest =>
    if c = Char.ofNat 36 then
      match rest with
      | [] => .error .valueError
      | d :: ds =>
        if d = Char.ofNat 36 then
          (substTemplate m ds).map (fun o => d :: o)
        else if d = Char.ofNat 123 then
          match ds with
          | [] => .error .valueError
          | e :: es =>
            if isIdStart e then
              if (es.dropWhile isIdCont).head? = some (Char.ofNat 125) then
                match m (String.mk (e :: es.takeWhile isIdCont)) with
                | some v =>
                  (substTemplate m (es.dropWhile isIdCont).tail).map
                    (fun o => v.data ++ o)
                | none => .error (.keyError (String.mk (e :: es.takeWhile isIdCont)))
              else .error .valueError
            else .error .valueError
        else if isIdStart d then
          match m (String.mk (d :: ds.takeWhile isIdCont)) with
          | some v => (substTemplate m (ds.dropWhile isIdCont)).map (fun o => v.data ++ o)
          | none => .error (.keyError (String.mk (d :: ds.takeWhile isIdCont)))
        else .error .valueError
    else
      (substTemplate m rest).map (fun o => c :: o)
termination_by l => l.length
decreasing_by
  · simp only [List.length_cons]; omega
  · simp only [List.length_cons]
    exact Nat.lt_of_le_of_lt
      (le_trans (length_tail_le _) (length_dropWhile_le _ _)) (by omega)
  · simp only [List.length_cons]
    exact Nat.lt_of_le_of_lt (length_dropWhile_le _ _) (by omega)
  · simp only [List.length_cons]; omega

/-! ### Constants of the script -/

/-- `REPROXY_CFG_HEADER` (lines 22-27); note that it itself contains the
`$reproxy_cfg_template` placeholder, so the header is rendered too. -/
def REPROXY_CFG_HEADER : String :=
  "# AUTOGENERATED FILE - DO NOT EDIT\n# Generated by configure_reclient_cfgs.py\n# To edit:\n# Update reproxy_cfg_templates/$reproxy_cfg_template\n# And run \x27gclient sync\x27 or \x27gclient runhooks\x27\n"

/-- `AUTO_AUTH_FLAGS` (lines 29-33). -/
def AUTO_AUTH_FLAGS : String :=
  "\n# Googler auth flags\nautomatic_auth=true\ngcert_refresh_timeout=20\n"

/-- `ADC_AUTH_FLAGS` (lines 35-38). -/
def ADC_AUTH_FLAGS : String :=
  "\n# ADC auth flags\nuse_application_default_credentials=true\n"

/-! ### The external world

Everything the script observes about its environment, gathered into one
record of oracles.  Filesystem paths that the script only ever uses as fixed
anchors (`THIS_DIR`, `CHROMIUM_SRC`) are left implicit: `templates` maps a
template file name to its content (`none` when
`reproxy_cfg_templates/<name>` does not exist), `priorReproxy` is the
content of the fixed output path `reproxy.cfg` before the run, and the
per-toolchain oracles describe the outcome of the `cipd ensure` invocation
and the state of the fetched package directory. -/

structure World where
  /-- Content of `reproxy_cfg_templates/<name>`, or `none` if missing. -/
  templates : String → Option String
  /-- `sys.platform.startswith('win')`. -/
  isWin : Bool
  /-- `os.path.join(CHROMIUM_SRC, 'buildtools', 'reclient', 'scandeps_server')`. -/
  scandepsServer : String
  /-- Content of the fixed output path `reclient_cfgs/reproxy.cfg` before the run. -/
  priorReproxy : Option String
  /-- `update.PACKAGE_VERSION` from the clang update helper (`ClangRevision`). -/
  clangRev : String
  /-- Result of `NaclRevision()` (revision-control interaction abstracted). -/
  naclRev : Option String
  /-- Whether the external `cipd ensure` command succeeds for a toolchain. -/
  ensureOk : String → Bool
  /-- Captured output of a failed `cipd ensure` command for a toolchain. -/
  ensureOut : String → String
  /-- Return code of the `cipd auth-info` probe. -/
  authRc : Nat
  /-- Whether `win-cross/<toolchain>` already exists before the run. -/
  wceDirExists : String → Bool
  /-- Whether `win-cross/<toolchain>/<basename>` already exists before the run. -/
  wceFileExists : String → String → Bool
  /-- Whether the fetched package directory `<toolchain>/win-cross` exists. -/
  hasWinCross : String → Bool
  /-- Basenames of the `*.cfg` files in `<toolchain>/win-cross`. -/
  winCrossCfgs : String → List String

/-- `CipdEnsure` wired to the world's oracles for one toolchain (the package
name passed to the real binary is `posixpath.join(cipd_prefix, rbe_project,
toolchain)`; within a single run that determines and is determined by the
toolchain name, which is what keys the oracle). -/
def CipdEnsureW (w : World) (toolchain : String) : CipdResult :=
  CipdEnsure (w.ensureOk toolchain) (w.ensureOut toolchain) w.authRc

/-! ### `GenerateReproxyCfg`

Source (lines 132-159).  Returns `(wrote?, file)` where `file` is the content
of the fixed output path after the call (`prior` is returned unchanged when
nothing was written); a `KeyError`/`ValueError` escaping from
`Template.substitute` is an uncaught exception (and then nothing is written,
since the output file is only opened after `substitute` returns). -/
/-- The five-key substitution dictionary passed to `Template.substitute`
(lines 149-155); `rbe_project` may be `None`, which `substitute` stringifies
as `"None"`. -/
def reproxyMapping (w : World) (reproxy_cfg_template rbe_instance : String)
    (rbe_project : Option String) : String → Option String :=
  fun k =>
    if k = "rbe_instance" then some rbe_instance
    else if k = "rbe_project" then some (pyStr rbe_project)
    else if k = "reproxy_cfg_template" then some reproxy_cfg_template
    else if k = "depsscanner_address" then
      some ("exec://" ++ w.scandepsServer ++ (if w.isWin then (".exe") else ("")))
    else if k = "auth_flags" then
      some (if w.isWin then ADC_AUTH_FLAGS else AUTO_AUTH_FLAGS)
    else none

def GenerateReproxyCfg (w : World) (reproxy_cfg_template rbe_instance : String)
    (rbe_project : Option String) (prior : Option String) :
    Except PyErr (Bool × Option String) :=
  match w.templates reproxy_cfg_template with
  | none => .ok (false, prior)
  | some content =>
    match substTemplate (reproxyMapping w reproxy_cfg_template rbe_instance rbe_project)
        (REPROXY_CFG_HEADER ++ content).data with
    | .error e => .error e
    | .ok out => .ok (true, some (String.mk out))

/-! ### The orchestrator (`main`) -/

/-- Externally visible events of the fetch loop, in program order. -/
inductive Ev where
  /-- `CipdEnsure` was invoked for this toolchain. -/
  | fetch (toolchain : String) : Ev
  /-- The toolchain's revision was unresolved; it was logged and skipped. -/
  | skip (toolchain : String) : Ev
  /-- `RequestCipdAuthentication()` printed the re-authentication instructions. -/
  | authPrompt : Ev
  /-- `os.makedirs(win-cross/<toolchain>)` was performed. -/
  | mkWce (toolchain : String) : Ev
  /-- `win-cross/<basename>.cfg` was copied for this toolchain; `removedExisting`
  records whether a pre-existing destination file was chmod-ed and removed first. -/
  | copyCfg (toolchain : String) (basename : String) (removedExisting : Bool) : Ev
deriving DecidableEq, Repr

/-- The per-toolchain post-processing after a successful fetch (main, lines
265-280): create `win-cross/<toolchain>` when absent — unconditionally, before
the package is examined — then, if the fetched package has a `win-cross`
subdirectory, copy each `*.cfg` file, chmod-ing and removing a pre-existing
destination first. -/
def postEvents (w : World) (toolchain : String) : List Ev :=
  (if w.wceDirExists toolchain then [] else [Ev.mkWce toolchain]) ++
  (if w.hasWinCross toolchain then
    (w.winCrossCfgs toolchain).map (fun f =>
      Ev.copyCfg toolchain f (w.wceDirExists toolchain && w.wceFileExists toolchain f))
  else [])

/-- The fetch loop of `main` (lines 245-280) over `tool_revisions` entries:
skip falsy revisions, invoke `CipdEnsure`, post-process on success; on
`CipdAuthError` print the authentication instructions and return 1; on
`CipdError` log it and return 1.  Returns the exit code and the event trace. -/
def runToolchains (w : World) : List (String × Option String) → Nat × List Ev
  | [] => (0, [])
  | (t, rev) :: rest =>
    if pyFalsy rev then
      let r := runToolchains w rest
      (r.1, Ev.skip t :: r.2)
    else
      match CipdEnsureW w t with
      | .ok =>
        let r := runToolchains w rest
        (r.1, Ev.fetch t :: (postEvents w t ++ r.2))
      | .authError _ => (1, [Ev.fetch t, Ev.authPrompt])
      | .cipdError _ => (1, [Ev.fetch t])

/-- `tool_revisions` (lines 240-244): clang from the update helper, nacl from
`NaclRevision()`, python fixed at 3.8.0. -/
def toolRevisions (w : World) : List (String × Option String) :=
  [("chromium-browser-clang", some w.clangRev),
   ("nacl", w.naclRev),
   ("python", some ("3.8.0"))]

/-- Parsed command-line arguments (`None` = flag absent; empty strings are
possible and falsy, as in Python). -/
structure Args where
  rewrapper_cfg_project : Option String
  reproxy_cfg_template : Option String
  rbe_instance : Option String
  cipd_prefix : String
  skip_remoteexec_cfg_fetch : Bool
  quiet : Bool

/-- Result of a `main` run that did not end in an uncaught exception. -/
structure MainRes where
  exit : Nat
  reproxyFile : Option String
  evs : List Ev
deriving DecidableEq, Repr

/-- The tail of `main` from the `skip_remoteexec_cfg_fetch` check on (lines
233-282): stop with 0 when skipping; otherwise
`posixpath.join(args.cipd_prefix, rbe_project)` — which raises `TypeError`
when `rbe_project` is `None` — and the fetch loop. -/
def mainFetchPhase (args : Args) (w : World) (rbe_project : Option String)
    (file : Option String) : Except PyErr MainRes :=
  if args.skip_remoteexec_cfg_fetch then .ok ⟨0, file, []⟩
  else
    match rbe_project with
    | none => .error PyErr.typeError
    | some _ =>
      let r := runToolchains w (toolRevisions w)
      .ok ⟨r.1, file, r.2⟩

/-- `main` (lines 181-282) as a function of the parsed arguments and the
world: validate that at least one of the project/instance flags is truthy,
derive `rbe_project`, optionally render the template (aborting with exit 1
on a `False` return), then run the fetch phase. -/
def mainRun (args : Args) (w : World) : Except PyErr MainRes :=
  if pyFalsy args.rewrapper_cfg_project && pyFalsy args.rbe_instance then
    .ok ⟨1, w.priorReproxy, []⟩
  else
    let rbe_project : Option String :=
      if pyFalsy args.rewrapper_cfg_project then
        args.rbe_instance.bind RbeProjectFromInstance
      else args.rewrapper_cfg_project
    if ¬ pyFalsy args.reproxy_cfg_template then
      if pyFalsy args.rbe_instance then .ok ⟨1, w.priorReproxy, []⟩
      else
        match GenerateReproxyCfg w (args.reproxy_cfg_template.getD "")
            (args.rbe_instance.getD "") rbe_project w.priorReproxy with
        | .error e => .error e
        | .ok (false, f) => .ok ⟨1, f, []⟩
        | .ok (true, f) => mainFetchPhase args w rbe_project f
    else mainFetchPhase args w rbe_project w.priorReproxy

/-! ## Claim theorems -/

/-- C1 (amended).  For the sub-repository toolchain resolved via the
`gclient revinfo` fallback: if the output is `prefix@commit` where the prefix
(`path: url`) contains no `@` and the commit is 40+ lowercase hex characters,
the parsing step of `NaclRevision` returns that commit; if the output contains
no `@` at all, or the field between the first and second `@` (Python
`split("@")[1]`) fails the `^[0-9a-f]\x7b40,\x7d$` check (which tolerates one
trailing newline), it returns `None`; being a total function, the parsing
step never raises.  (The original claim is falsified when the url itself
contains `@`, see `naclParseRevinfo_counterexample`.) -/
theorem naclParseRevinfo_amended :
    (∀ (p c : List Char), Char.ofNat 64 ∉ p → 40 ≤ c.length → c.all isLowerHex →
      naclParseRevinfo (String.mk (p ++ Char.ofNat 64 :: c)) = some (String.mk c)) ∧
    (∀ s : String, Char.ofNat 64 ∉ s.data → naclParseRevinfo s = none) ∧
    (∀ (s : String) (c : List Char),
      (splitCh (Char.ofNat 64) s.data).get? 1 = some c → pyFullHexMatch c = false →
      naclParseRevinfo s = none) := by
  refine ⟨?_, ?_, ?_⟩
  · intro p c hp hlen hhex
    have hc64 : Char.ofNat 64 ∉ c := by
      intro hm
      have := List.all_eq_true.mp hhex _ hm
      exact absurd this (by decide)
    have hnl : c.getLast? ≠ some (Char.ofNat 10) := by
      intro h10
      have hx : Char.ofNat 10 ∈ c.getLast? := Option.mem_def.mpr h10
      obtain ⟨hne, hxeq⟩ := List.mem_getLast?_eq_getLast hx
      have hmem : Char.ofNat 10 ∈ c := hxeq ▸ List.getLast_mem hne
      have := List.all_eq_true.mp hhex _ hmem
      exact absurd this (by decide)
    have hmatch : pyFullHexMatch c = true := by
      simp only [pyFullHexMatch, if_neg hnl]
      simp [hlen, hhex]
    unfold naclParseRevinfo
    have hdata : (String.mk (p ++ Char.ofNat 64 :: c)).data = p ++ Char.ofNat 64 :: c := rfl
    rw [hdata, splitCh_append hp, splitCh_of_not_mem hc64]
    simp [hmatch]
  · intro s h
    unfold naclParseRevinfo
    rw [splitCh_of_not_mem h]
    rfl
  · intro s c h hfail
    unfold naclParseRevinfo
    rw [h]
    show (if pyFullHexMatch c = true then some (String.mk c) else none) = none
    rw [hfail]
    simp

/-- Witness for C1: a concrete well-formed revinfo line parses to its commit. -/
theorem naclParseRevinfo_amended_witness :
    naclParseRevinfo (String.mk (("src/native_client: https://x").data ++
        Char.ofNat 64 :: List.replicate 40 ('a'))) =
      some (String.mk (List.replicate 40 ('a'))) :=
  naclParseRevinfo_amended.1 _ _ (by decide) (by decide) (by decide)

/-- C1 counterexample to the original claim: the output
`src/native_client: https://user@host/nc@` + 40 hex chars has the claimed
form `path: url@commit` with a 40-lowercase-hex commit (the url contains a
user-info `@`), yet the code returns `None`, because `split("@")[1]` selects
the text between the first and second `@` (`host/nc`), not the commit. -/
theorem naclParseRevinfo_counterexample :
    (List.replicate 40 ('a')).all isLowerHex = true ∧
    40 ≤ (List.replicate 40 ('a')).length ∧
    naclParseRevinfo (("src/native_client: https://user@host/nc@") ++
      String.mk (List.replicate 40 ('a'))) = none :=
  ⟨by decide, by decide, by decide⟩

/-- Character-level decomposition of a `projects/P/instances/I` string
(47 is `/`). -/
theorem instance_data_decomp (P I : String) :
    ("projects/" ++ P ++ "/instances/" ++ I).data
      = ("projects").data ++ Char.ofNat 47 :: (P.data ++ Char.ofNat 47 ::
          (("instances").data ++ Char.ofNat 47 :: I.data)) := by
  have h1 : ("projects/").data = ("projects").data ++ [Char.ofNat 47] := by decide
  have h2 : ("/instances/").data
      = Char.ofNat 47 :: (("instances").data ++ [Char.ofNat 47]) := by decide
  simp only [String.data_append, h1, h2]
  simp [List.append_assoc]

/-- C3.  For every instance string of the form `projects/P/instances/I` with
`P`, `I` non-empty strings of word characters (ASCII letters, digits,
underscore) and hyphens, `RbeProjectFromInstance` returns exactly `P`; and
whenever it returns a project, the input fully matched that pattern — so for
every string not of that form it returns `None`. -/
theorem RbeProjectFromInstance_spec :
    (∀ P I : String, P ≠ "" → I ≠ "" → P.data.all wordOrHyphen → I.data.all wordOrHyphen →
      RbeProjectFromInstance ("projects/" ++ P ++ "/instances/" ++ I) = some P) ∧
    (∀ (s p : String), RbeProjectFromInstance s = some p →
      ∃ P I : String, s = "projects/" ++ P ++ "/instances/" ++ I ∧ p = P ∧
        P ≠ "" ∧ I ≠ "" ∧ P.data.all wordOrHyphen ∧ I.data.all wordOrHyphen) := by
  constructor
  · intro P I hP hI hPw hIw
    have hPs : Char.ofNat 47 ∉ P.data := by
      intro hm
      have := List.all_eq_true.mp hPw _ hm
      exact absurd this (by decide)
    have hIs : Char.ofNat 47 ∉ I.data := by
      intro hm
      have := List.all_eq_true.mp hIw _ hm
      exact absurd this (by decide)
    have hproj : Char.ofNat 47 ∉ ("projects").data := by decide
    have hinst : Char.ofNat 47 ∉ ("instances").data := by decide
    have hPd : P.data ≠ [] := fun h => hP (String.ext h)
    have hId : I.data ≠ [] := fun h => hI (String.ext h)
    unfold RbeProjectFromInstance
    rw [instance_data_decomp, splitCh_append hproj, splitCh_append hPs,
      splitCh_append hinst, splitCh_of_not_mem hIs]
    show (if _ ∧ _ ∧ _ ∧ _ ∧ _ ∧ _ then some (String.mk P.data) else none) = some P
    rw [if_pos ⟨rfl, rfl, hPd, hPw, hId, hIw⟩]
  · intro s p h
    unfold RbeProjectFromInstance at h
    cases hsp : splitCh (Char.ofNat 47) s.data with
    | nil => rw [hsp] at h; exact Option.noConfusion h
    | cons a t1 =>
      rw [hsp] at h
      cases t1 with
      | nil => exact Option.noConfusion h
      | cons q t2 =>
        cases t2 with
        | nil => exact Option.noConfusion h
        | cons b t3 =>
          cases t3 with
          | nil => exact Option.noConfusion h
          | cons i t4 =>
            cases t4 with
            | cons x t5 => exact Option.noConfusion h
            | nil =>
              have hjoin := joinCh_splitCh (Char.ofNat 47) s.data
              rw [hsp] at hjoin
              have h2 : (if a = ("projects").data ∧ b = ("instances").data ∧
                  q ≠ [] ∧ q.all wordOrHyphen ∧ i ≠ [] ∧ i.all wordOrHyphen then
                    some (String.mk q) else none) = some p := h
              by_cases hcond : a = ("projects").data ∧ b = ("instances").data ∧
                  q ≠ [] ∧ q.all wordOrHyphen ∧ i ≠ [] ∧ i.all wordOrHyphen
              · rw [if_pos hcond] at h2
                obtain ⟨ha, hb, hq, hqw, hi, hiw⟩ := hcond
                refine ⟨String.mk q, String.mk i, ?_, ?_, ?_, ?_, hqw, hiw⟩
                · apply String.ext
                  rw [instance_data_decomp]
                  rw [← hjoin, ha, hb]
                  simp [joinCh]
                · exact (Option.some_inj.mp h2).symm
                · intro he
                  exact hq (congrArg String.data he)
                · intro he
                  exact hi (congrArg String.data he)
              · rw [if_neg hcond] at h2
                exact Option.noConfusion h2

/-- Witness for C3 at a concrete instance string. -/
theorem RbeProjectFromInstance_spec_witness :
    RbeProjectFromInstance ("projects/" ++ ("my-proj") ++ "/instances/" ++ ("default_inst")) =
      some ("my-proj") :=
  RbeProjectFromInstance_spec.1 _ _ (by decide) (by decide) (by decide) (by decide)

/-- C2.  If the external package-ensure command succeeds, `CipdEnsure` returns
normally; if it fails and the `IsCipdLoggedIn` probe reports unauthenticated
(nonzero return code), it raises the typed auth error; if it fails and the
probe reports authenticated, it raises the typed generic error; both failure
cases carry the captured output of the failed ensure command. -/
theorem CipdEnsure_spec (ensureOk : Bool) (output : String) (authRc : Nat) :
    (IsCipdLoggedIn authRc = false ↔ authRc ≠ 0) ∧
    (ensureOk = true → CipdEnsure ensureOk output authRc = .ok) ∧
    (ensureOk = false → IsCipdLoggedIn authRc = false →
      CipdEnsure ensureOk output authRc = .authError output) ∧
    (ensureOk = false → IsCipdLoggedIn authRc = true →
      CipdEnsure ensureOk output authRc = .cipdError output) := by
  refine ⟨?_, ?_, ?_, ?_⟩
  · simp [IsCipdLoggedIn]
  · intro h; simp [CipdEnsure, h]
  · intro h1 h2; simp [CipdEnsure, h1, h2]
  · intro h1 h2; simp [CipdEnsure, h1, h2]

/-- Witness for C2 at concrete outcomes. -/
theorem CipdEnsure_spec_witness :
    (CipdEnsure false ("err output") 1 = .authError ("err output")) ∧
    (CipdEnsure false ("err output") 0 = .cipdError ("err output")) ∧
    (CipdEnsure true ("") 5 = .ok) :=
  ⟨(CipdEnsure_spec false ("err output") 1).2.2.1 rfl (by decide),
   (CipdEnsure_spec false ("err output") 0).2.2.2 rfl (by decide),
   (CipdEnsure_spec true ("") 5).2.1 rfl⟩

/-- C4.  When a (truthy) template name is supplied and the named template file
does not exist, `GenerateReproxyCfg` returns `False` with the output path left
unchanged (no exception), and `main` returns exit code 1 with an empty event
trace — in particular no package fetch is ever attempted in that run and the
fixed output path still holds its prior content. -/
theorem templateMissing_spec (args : Args) (w : World) (t : String)
    (ht : args.reproxy_cfg_template = some t) (htne : t ≠ "")
    (hmiss : w.templates t = none) :
    (∀ (inst : String) (proj prior : Option String),
      GenerateReproxyCfg w t inst proj prior = .ok (false, prior)) ∧
    mainRun args w = .ok ⟨1, w.priorReproxy, []⟩ := by
  have hgen : ∀ (inst : String) (proj prior : Option String),
      GenerateReproxyCfg w t inst proj prior = .ok (false, prior) := by
    intro inst proj prior
    unfold GenerateReproxyCfg
    rw [hmiss]
  refine ⟨hgen, ?_⟩
  have hpf : pyFalsy (some t) = false := by simp [pyFalsy, htne]
  unfold mainRun
  by_cases h1 : (pyFalsy args.rewrapper_cfg_project && pyFalsy args.rbe_instance) = true
  · rw [if_pos h1]
  · rw [if_neg h1]
    simp only [ht, hpf]
    by_cases h2 : pyFalsy args.rbe_instance = true
    · simp [h2]
    · have h2f : pyFalsy args.rbe_instance = false := by simpa using h2
      simp [h2f, hgen]

def wBase : World :=
  { templates := fun _ => none
    isWin := false
    scandepsServer := "/cs/buildtools/reclient/scandeps_server"
    priorReproxy := some ("old content")
    clangRev := "llvmorg-1-abc"
    naclRev := none
    ensureOk := fun _ => true
    ensureOut := fun _ => ""
    authRc := 0
    wceDirExists := fun _ => false
    wceFileExists := fun _ _ => false
    hasWinCross := fun _ => false
    winCrossCfgs := fun _ => [] }

def argsBase : Args :=
  { rewrapper_cfg_project := some ("projX")
    reproxy_cfg_template := none
    rbe_instance := none
    cipd_prefix := "infra_internal/rbe/reclient_cfgs"
    skip_remoteexec_cfg_fetch := false
    quiet := false }

/-- Witness for C4 at a concrete argument/world pair. -/
theorem templateMissing_spec_witness :
    GenerateReproxyCfg wBase ("missing.cfg") ("inst") none none = .ok (false, none) ∧
    mainRun { argsBase with reproxy_cfg_template := some ("missing.cfg") } wBase
      = .ok ⟨1, wBase.priorReproxy, []⟩ :=
  ⟨(templateMissing_spec { argsBase with reproxy_cfg_template := some ("missing.cfg") }
      wBase ("missing.cfg") rfl (by decide) rfl).1 ("inst") none none,
   (templateMissing_spec { argsBase with reproxy_cfg_template := some ("missing.cfg") }
      wBase ("missing.cfg") rfl (by decide) rfl).2⟩

/-- C9.  If no explicit project override is supplied, the supplied (truthy)
instance string does not match the `projects/P/instances/I` pattern, fetching
is not skipped and no template is requested, then `main` dies with an uncaught
`TypeError` from `posixpath.join(args.cipd_prefix, None)` instead of
reporting a usage error. -/
theorem noneProject_typeError (args : Args) (w : World) (s : String)
    (h1 : args.rewrapper_cfg_project = none)
    (h2 : args.rbe_instance = some s) (h2b : s ≠ "")
    (h3 : RbeProjectFromInstance s = none)
    (h4 : args.skip_remoteexec_cfg_fetch = false)
    (h5 : args.reproxy_cfg_template = none) :
    mainRun args w = .error PyErr.typeError := by
  have hA : pyFalsy args.rewrapper_cfg_project = true := by simp [h1, pyFalsy]
  have hB : pyFalsy args.rbe_instance = false := by simp [h2, pyFalsy, h2b]
  unfold mainRun
  rw [if_neg (by simp [hA, hB])]
  simp [h5, pyFalsy, hA, h1, h2, h3, mainFetchPhase, h4]

/-- Witness for C9 at a concrete non-matching instance string. -/
theorem noneProject_typeError_witness :
    mainRun { argsBase with
        rewrapper_cfg_project := none
        rbe_instance := some ("projects/p/q/instances/i") } wBase
      = .error PyErr.typeError :=
  noneProject_typeError _ wBase ("projects/p/q/instances/i") rfl rfl (by decide)
    (by decide) rfl rfl

theorem postEvents_no_fetch (w : World) (t u : String) :
    Ev.fetch u ∉ postEvents w t := by
  intro h
  rcases List.mem_append.mp h with h1 | h1
  · split at h1
    · simp at h1
    · simp at h1
  · split at h1
    · obtain ⟨f, _, heq⟩ := List.mem_map.mp h1
      exact Ev.noConfusion heq
    · simp at h1

theorem runToolchains_fetch_mem (w : World) (l : List (String × Option String)) (u : String)
    (hmem : Ev.fetch u ∈ (runToolchains w l).2) :
    ∃ rev, (u, rev) ∈ l ∧ pyFalsy rev = false := by
  induction l with
  | nil => simp [runToolchains] at hmem
  | cons p rest ih =>
    obtain ⟨t, rev⟩ := p
    by_cases hf : pyFalsy rev = true
    · simp only [runToolchains, hf, if_true] at hmem
      rcases List.mem_cons.mp hmem with h1 | h1
      · exact Ev.noConfusion h1
      · obtain ⟨rev', hmem', hrev'⟩ := ih h1
        exact ⟨rev', List.mem_cons_of_mem _ hmem', hrev'⟩
    · have hff : pyFalsy rev = false := by simpa using hf
      simp only [runToolchains, hff, Bool.false_eq_true, if_false] at hmem
      cases hce : CipdEnsureW w t with
      | ok =>
        rw [hce] at hmem
        rcases List.mem_cons.mp hmem with h1 | h1
        · obtain rfl : u = t := by cases h1; rfl
          exact ⟨rev, List.mem_cons_self _ _, hff⟩
        · rcases List.mem_append.mp h1 with h2 | h2
          · exact absurd h2 (postEvents_no_fetch w t u)
          · obtain ⟨rev', hmem', hrev'⟩ := ih h2
            exact ⟨rev', List.mem_cons_of_mem _ hmem', hrev'⟩
      | authError o =>
        rw [hce] at hmem
        rcases List.mem_cons.mp hmem with h1 | h1
        · obtain rfl : u = t := by cases h1; rfl
          exact ⟨rev, List.mem_cons_self _ _, hff⟩
        · simp at h1
      | cipdError o =>
        rw [hce] at hmem
        rcases List.mem_cons.mp hmem with h1 | h1
        · obtain rfl : u = t := by cases h1; rfl
          exact ⟨rev, List.mem_cons_self _ _, hff⟩
        · simp at h1

theorem runToolchains_all_ok (w : World) (l : List (String × Option String))
    (h : ∀ p ∈ l, pyFalsy p.2 = false → w.ensureOk p.1 = true) :
    (runToolchains w l).1 = 0 := by
  induction l with
  | nil => rfl
  | cons p rest ih =>
    obtain ⟨t, rev⟩ := p
    have hrest : ∀ q ∈ rest, pyFalsy q.2 = false → w.ensureOk q.1 = true :=
      fun q hq => h q (List.mem_cons_of_mem _ hq)
    by_cases hf : pyFalsy rev = true
    · simp only [runToolchains, hf, if_true]
      exact ih hrest
    · have hff : pyFalsy rev = false := by simpa using hf
      have hok : w.ensureOk t = true := h (t, rev) (List.mem_cons_self _ _) hff
      have hce : CipdEnsureW w t = .ok := by simp [CipdEnsureW, CipdEnsure, hok]
      simp only [runToolchains, hff, Bool.false_eq_true, if_false, hce]
      exact ih hrest

theorem runToolchains_auth (w : World) (hauth : w.authRc ≠ 0)
    (l1 : List (String × Option String)) (t : String) (rev : Option String)
    (l2 : List (String × Option String))
    (hrev : pyFalsy rev = false) (hfail : w.ensureOk t = false)
    (hpre : ∀ q ∈ l1, pyFalsy q.2 = false → w.ensureOk q.1 = true) :
    (runToolchains w (l1 ++ (t, rev) :: l2)).1 = 1 ∧
    Ev.authPrompt ∈ (runToolchains w (l1 ++ (t, rev) :: l2)).2 ∧
    ∀ u, Ev.fetch u ∈ (runToolchains w (l1 ++ (t, rev) :: l2)).2 →
      u ∈ l1.map Prod.fst ++ [t] := by
  induction l1 with
  | nil =>
    have hce : CipdEnsureW w t = .authError (w.ensureOut t) := by
      simp [CipdEnsureW, CipdEnsure, hfail, IsCipdLoggedIn, hauth]
    simp only [List.nil_append, runToolchains, hrev, Bool.false_eq_true, if_false, hce]
    refine ⟨by simp, by simp, ?_⟩
    intro u hu
    rcases List.mem_cons.mp hu with h1 | h1
    · obtain rfl : u = t := by cases h1; rfl
      simp
    · simp at h1
  | cons q l1' ih =>
    obtain ⟨t0, rev0⟩ := q
    have hpre' : ∀ q ∈ l1', pyFalsy q.2 = false → w.ensureOk q.1 = true :=
      fun q hq => hpre q (List.mem_cons_of_mem _ hq)
    have ihh := ih hpre'
    by_cases hf : pyFalsy rev0 = true
    · simp only [List.cons_append, runToolchains, hf, if_true]
      refine ⟨ihh.1, List.mem_cons_of_mem _ ihh.2.1, ?_⟩
      intro u hu
      rcases List.mem_cons.mp hu with h1 | h1
      · exact Ev.noConfusion h1
      · have := ihh.2.2 u h1
        simp only [List.map_cons, List.cons_append]
        exact List.mem_cons_of_mem _ this
    · have hff : pyFalsy rev0 = false := by simpa using hf
      have hok0 : w.ensureOk t0 = true := hpre (t0, rev0) (List.mem_cons_self _ _) hff
      have hce0 : CipdEnsureW w t0 = .ok := by simp [CipdEnsureW, CipdEnsure, hok0]
      simp only [List.cons_append, runToolchains, hff, Bool.false_eq_true, if_false, hce0]
      refine ⟨ihh.1, ?_, ?_⟩
      · exact List.mem_cons_of_mem _ (List.mem_append_right _ ihh.2.1)
      · intro u hu
        simp only [List.map_cons, List.cons_append]
        rcases List.mem_cons.mp hu with h1 | h1
        · obtain rfl : u = t0 := by cases h1; rfl
          exact List.mem_cons_self _ _
        · rcases List.mem_append.mp h1 with h2 | h2
          · exact absurd h2 (postEvents_no_fetch w t0 u)
          · exact List.mem_cons_of_mem _ (ihh.2.2 u h2)

theorem toolRevisions_functional (w : World) (t : String) (r1 r2 : Option String)
    (h1 : (t, r1) ∈ toolRevisions w) (h2 : (t, r2) ∈ toolRevisions w) : r1 = r2 := by
  simp [toolRevisions, Prod.ext_iff] at h1 h2
  rcases h1 with ⟨ht, hr⟩ | ⟨ht, hr⟩ | ⟨ht, hr⟩ <;>
    rcases h2 with ⟨ht2, hr2⟩ | ⟨ht2, hr2⟩ | ⟨ht2, hr2⟩ <;> simp_all

theorem mainRun_fetch_path (args : Args) (w : World) (p : String)
    (hproj : args.rewrapper_cfg_project = some p) (hp : p ≠ "")
    (htmpl : args.reproxy_cfg_template = none)
    (hskip : args.skip_remoteexec_cfg_fetch = false) :
    mainRun args w = .ok ⟨(runToolchains w (toolRevisions w)).1, w.priorReproxy,
      (runToolchains w (toolRevisions w)).2⟩ := by
  have hA : pyFalsy args.rewrapper_cfg_project = false := by simp [hproj, pyFalsy, hp]
  unfold mainRun
  rw [if_neg (by simp [hA])]
  simp [htmpl, pyFalsy, hA, hproj, mainFetchPhase, hskip, hp]

/-- C5.  In a run that reaches the fetch phase, every toolchain whose resolved
revision is falsy (`None` or empty) gets no `CipdEnsure` invocation (no fetch
event), and if every resolved toolchain's fetch succeeds the run exits 0. -/
theorem skipUnresolved_spec (args : Args) (w : World) (p : String)
    (hproj : args.rewrapper_cfg_project = some p) (hp : p ≠ "")
    (htmpl : args.reproxy_cfg_template = none)
    (hskip : args.skip_remoteexec_cfg_fetch = false) :
    ∃ r : MainRes, mainRun args w = .ok r ∧
      (∀ t rev, (t, rev) ∈ toolRevisions w → pyFalsy rev = true → Ev.fetch t ∉ r.evs) ∧
      ((∀ t rev, (t, rev) ∈ toolRevisions w → pyFalsy rev = false → w.ensureOk t = true) →
        r.exit = 0) := by
  refine ⟨_, mainRun_fetch_path args w p hproj hp htmpl hskip, ?_, ?_⟩
  · intro t rev hmem hfal hfetch
    obtain ⟨rev', hmem', hrev'⟩ := runToolchains_fetch_mem w _ t hfetch
    have heq := toolRevisions_functional w t rev rev' hmem hmem'
    rw [← heq, hfal] at hrev'
    exact Bool.noConfusion hrev'
  · intro hall
    exact runToolchains_all_ok w _ (fun q hq => hall q.1 q.2 hq)

def rSkip : MainRes :=
  ⟨0, some ("old content"),
    [Ev.fetch ("chromium-browser-clang"), Ev.mkWce ("chromium-browser-clang"),
     Ev.skip ("nacl"), Ev.fetch ("python"), Ev.mkWce ("python")]⟩

/-- Witness for C5: with `nacl` unresolved and the other fetches succeeding,
`nacl` is never fetched and the run exits 0. -/
theorem skipUnresolved_spec_witness :
    mainRun argsBase wBase = .ok rSkip ∧ Ev.fetch ("nacl") ∉ rSkip.evs ∧ rSkip.exit = 0 := by
  obtain ⟨r, hr, hnf, hex⟩ :=
    skipUnresolved_spec argsBase wBase ("projX") rfl (by decide) rfl rfl
  have hval : mainRun argsBase wBase = .ok rSkip := rfl
  have hreq : r = rSkip := Except.ok.inj (hr.symm.trans hval)
  subst hreq
  exact ⟨hval, hnf ("nacl") none (by simp [toolRevisions, wBase]) rfl,
    hex (fun t rev hm hf => rfl)⟩

/-- C6.  In a run that reaches the fetch phase with the auth probe reporting
unauthenticated, if some reached toolchain's fetch fails (an auth error, since
the probe is unauthenticated), `main` prints the re-authentication
instructions and returns exit code 1, and no toolchain after the failing one
in the iteration is fetched — regardless of which toolchain triggered it. -/
theorem authAbort_spec (args : Args) (w : World) (p : String)
    (hproj : args.rewrapper_cfg_project = some p) (hp : p ≠ "")
    (htmpl : args.reproxy_cfg_template = none)
    (hskip : args.skip_remoteexec_cfg_fetch = false)
    (hauth : w.authRc ≠ 0)
    (l1 : List (String × Option String)) (t : String) (rev : Option String)
    (l2 : List (String × Option String))
    (hsplit : toolRevisions w = l1 ++ (t, rev) :: l2)
    (hrev : pyFalsy rev = false) (hfail : w.ensureOk t = false)
    (hpre : ∀ q ∈ l1, pyFalsy q.2 = false → w.ensureOk q.1 = true) :
    ∃ r : MainRes, mainRun args w = .ok r ∧ r.exit = 1 ∧ Ev.authPrompt ∈ r.evs ∧
      ∀ q ∈ l2, Ev.fetch q.1 ∉ r.evs := by
  have hmain := mainRun_fetch_path args w p hproj hp htmpl hskip
  rw [hsplit] at hmain
  have hrt := runToolchains_auth w hauth l1 t rev l2 hrev hfail hpre
  refine ⟨_, hmain, hrt.1, hrt.2.1, ?_⟩
  intro q hq hfetch
  have hin := hrt.2.2 q.1 hfetch
  have hnames : (toolRevisions w).map Prod.fst =
      [("chromium-browser-clang"), ("nacl"), ("python")] := rfl
  have hnodup : ((toolRevisions w).map Prod.fst).Nodup := by rw [hnames]; decide
  rw [hsplit] at hnodup
  simp only [List.map_append, List.map_cons] at hnodup
  have hqmem : q.1 ∈ l2.map Prod.fst := List.mem_map_of_mem Prod.fst hq
  rcases List.mem_append.mp hin with h1 | h1
  · have hdisj := List.disjoint_of_nodup_append hnodup
    exact hdisj h1 (List.mem_cons_of_mem _ hqmem)
  · have hteq : q.1 = t := by simpa using h1
    have hnd2 := hnodup.of_append_right
    have := (List.nodup_cons.mp hnd2).1
    exact this (hteq ▸ hqmem)

def wAuth : World :=
  { wBase with
      naclRev := some ("aaaaaaaaaaaaaaaaaaaaaaaaaaaaaaaaaaaaaaaa")
      ensureOk := fun t => t != ("nacl")
      authRc := 1 }

def rAuth : MainRes :=
  ⟨1, some ("old content"),
    [Ev.fetch ("chromium-browser-clang"), Ev.mkWce ("chromium-browser-clang"),
     Ev.fetch ("nacl"), Ev.authPrompt]⟩

/-- Witness for C6: `nacl` triggers the auth error; `python` (iterated after
`nacl`) is not fetched, the prompt is printed, exit code is 1. -/
theorem authAbort_spec_witness :
    mainRun argsBase wAuth = .ok rAuth ∧ rAuth.exit = 1 ∧ Ev.authPrompt ∈ rAuth.evs ∧
      Ev.fetch ("python") ∉ rAuth.evs := by
  obtain ⟨r, hr, hx, hpa, hnf⟩ :=
    authAbort_spec argsBase wAuth ("projX") rfl (by decide) rfl rfl (by decide)
      [(("chromium-browser-clang"), some wAuth.clangRev)] ("nacl")
      (some ("aaaaaaaaaaaaaaaaaaaaaaaaaaaaaaaaaaaaaaaa"))
      [(("python"), some ("3.8.0"))] rfl rfl rfl
      (by intro q hq hf; simp only [List.mem_singleton] at hq; subst hq; decide)
  have hval : mainRun argsBase wAuth = .ok rAuth := rfl
  have hreq : r = rAuth := Except.ok.inj (hr.symm.trans hval)
  subst hreq
  exact ⟨hval, hx, hpa, hnf (("python"), some ("3.8.0")) (by decide)⟩

/-- C8 (amended).  After a successful fetch of a toolchain, the sibling
`win-cross/<toolchain>` directory is created whenever it is absent —
unconditionally, whether or not the fetched package contains the `win-cross`
subdirectory (this is where the original iff claim fails, see
`postEvents_counterexample`) — and each `*.cfg` file is copied if and only if
the package contains the subdirectory, with a pre-existing same-named
destination having its permissions reset and being removed exactly when it
existed before the run. -/
theorem postEvents_spec (w : World) (t : String) :
    (Ev.mkWce t ∈ postEvents w t ↔ w.wceDirExists t = false) ∧
    (w.hasWinCross t = false → ∀ f r, Ev.copyCfg t f r ∉ postEvents w t) ∧
    (w.hasWinCross t = true → ∀ f ∈ w.winCrossCfgs t,
      Ev.copyCfg t f (w.wceDirExists t && w.wceFileExists t f) ∈ postEvents w t) := by
  refine ⟨?_, ?_, ?_⟩
  · cases hd : w.wceDirExists t <;> cases hw : w.hasWinCross t <;>
      simp [postEvents, hd, hw]
  · intro hw f r hmem
    unfold postEvents at hmem
    have hneg : ¬ (w.hasWinCross t = true) := by simp [hw]
    rw [if_neg hneg] at hmem
    rw [List.append_nil] at hmem
    split at hmem
    · simp at hmem
    · simp at hmem
  · intro hw f hf
    have hmem : Ev.copyCfg t f (w.wceDirExists t && w.wceFileExists t f) ∈
        (w.winCrossCfgs t).map (fun g =>
          Ev.copyCfg t g (w.wceDirExists t && w.wceFileExists t g)) :=
      List.mem_map_of_mem _ hf
    unfold postEvents
    refine List.mem_append_right _ ?_
    rw [if_pos hw]
    exact hmem

/-- C8 counterexample to the original claim: a concrete successful run in
which the `python` package has no `win-cross` subdirectory, yet the absent
sibling directory `win-cross/python` is still created (the original claim
asserts it is not created in this case). -/
theorem postEvents_counterexample :
    wBase.hasWinCross ("python") = false ∧
    wBase.wceDirExists ("python") = false ∧
    mainRun argsBase wBase = .ok rSkip ∧
    Ev.mkWce ("python") ∈ rSkip.evs :=
  ⟨rfl, rfl, rfl, by decide⟩

def wWin : World :=
  { wBase with
      hasWinCross := fun _ => true
      winCrossCfgs := fun _ => [("rewrapper_linux.cfg")] }

/-- Witness for C8 (amended) at concrete worlds with and without the
platform subdirectory. -/
theorem postEvents_spec_witness :
    (Ev.mkWce ("python") ∈ postEvents wBase ("python")) ∧
    (Ev.copyCfg ("python") ("x.cfg") false ∉ postEvents wBase ("python")) ∧
    (Ev.copyCfg ("python") ("rewrapper_linux.cfg") false ∈ postEvents wWin ("python")) :=
  ⟨(postEvents_spec wBase ("python")).1.mpr rfl,
   (postEvents_spec wBase ("python")).2.1 rfl ("x.cfg") false,
   (postEvents_spec wWin ("python")).2.2 rfl ("rewrapper_linux.cfg") (by decide)⟩

/-- The success path of `GenerateReproxyCfg` never reads the prior content of
the output file. -/
theorem generate_prior_indep (w : World) (t inst : String) (proj : Option String)
    (p1 p2 : Option String) (content : String) (htm : w.templates t = some content) :
    GenerateReproxyCfg w t inst proj p1 = GenerateReproxyCfg w t inst proj p2 := by
  unfold GenerateReproxyCfg
  rw [htm]

/-- C7.  Template rendering is deterministic and idempotent: for fixed
template content, named values and platform, a successful render yields a
fixed byte content; re-rendering (with the previous output as the prior file
content, or with any other prior content) produces that identical content and
fully replaces whatever was in the file. -/
theorem generate_deterministic (w : World) (t inst : String) (proj : Option String)
    (prior : Option String) (c : String)
    (h : GenerateReproxyCfg w t inst proj prior = .ok (true, some c)) :
    (∀ prior2 : Option String,
      GenerateReproxyCfg w t inst proj prior2 = .ok (true, some c)) ∧
    GenerateReproxyCfg w t inst proj (some c) = .ok (true, some c) := by
  have htm : ∃ content, w.templates t = some content := by
    cases htm : w.templates t with
    | none =>
      unfold GenerateReproxyCfg at h
      rw [htm] at h
      have h2 : (false, prior) = (true, some c) := Except.ok.inj h
      exact Bool.noConfusion (congrArg Prod.fst h2)
    | some content => exact ⟨content, rfl⟩
  obtain ⟨content, htm⟩ := htm
  have hind : ∀ p2, GenerateReproxyCfg w t inst proj p2 =
      GenerateReproxyCfg w t inst proj prior :=
    fun p2 => generate_prior_indep w t inst proj p2 prior content htm
  exact ⟨fun p2 => (hind p2).trans h, (hind (some c)).trans h⟩

def wTpl : World :=
  { wBase with
      templates := fun n => if n = "t.cfg" then some ("i=$rbe_instance\n") else none }

/-- The rendered output for `wTpl`: header (with the template name substituted)
followed by the rendered template body. -/
def renderedTcfg : String :=
  "# AUTOGENERATED FILE - DO NOT EDIT\n# Generated by configure_reclient_cfgs.py\n# To edit:\n# Update reproxy_cfg_templates/t.cfg\n# And run \x27gclient sync\x27 or \x27gclient runhooks\x27\ni=inst\n"

set_option maxRecDepth 10000 in
set_option maxHeartbeats 1000000 in
/-- Witness for C7: a concrete render evaluated to its byte-identical
output, then re-rendered over its own output via the theorem. -/
theorem generate_deterministic_witness :
    GenerateReproxyCfg wTpl ("t.cfg") ("inst") (some ("projX")) (some renderedTcfg)
      = .ok (true, some renderedTcfg) ∧
    GenerateReproxyCfg wTpl ("t.cfg") ("inst") (some ("projX")) none
      = .ok (true, some renderedTcfg) := by
  have h : GenerateReproxyCfg wTpl ("t.cfg") ("inst") (some ("projX")) none
      = .ok (true, some renderedTcfg) := by
    simp +decide [GenerateReproxyCfg, reproxyMapping, wTpl, wBase, REPROXY_CFG_HEADER,
      renderedTcfg, substTemplate, isIdStart, isIdCont, List.takeWhile, List.dropWhile,
      Except.map, pyStr, AUTO_AUTH_FLAGS]
  exact ⟨(generate_deterministic wTpl ("t.cfg") ("inst") (some ("projX")) none
    renderedTcfg h).2, h⟩

/-- Scanning passes over dollar-free text verbatim. -/
theorem substTemplate_append_nodollar (m : String → Option String) (l1 l2 : List Char)
    (h : Char.ofNat 36 ∉ l1) :
    substTemplate m (l1 ++ l2) = (substTemplate m l2).map (fun o => l1 ++ o) := by
  induction l1 with
  | nil =>
    simp only [List.nil_append]
    cases substTemplate m l2 <;> rfl
  | cons c l1' ih =>
    have hc : ¬ c = Char.ofNat 36 := fun hh => h (hh ▸ List.mem_cons_self c l1')
    have h' : Char.ofNat 36 ∉ l1' := fun hm => h (List.mem_cons_of_mem _ hm)
    have hstep : substTemplate m (c :: (l1' ++ l2)) =
        (substTemplate m (l1' ++ l2)).map (fun o => c :: o) := by
      rw [substTemplate.eq_def]
      simp only []
      rw [if_neg hc]
    rw [List.cons_append, hstep, ih h']
    cases substTemplate m l2 <;> rfl

/-- Scanning a `$name` placeholder (maximal identifier run, then a
non-identifier character or the end): substitute on a hit, `KeyError` on a
miss. -/
theorem substTemplate_named (m : String → Option String) (c0 : Char) (cs l2 : List Char)
    (hstart : isIdStart c0 = true) (hcs : cs.all isIdCont = true)
    (hl2 : ∀ d, l2.head? = some d → isIdCont d = false) :
    substTemplate m (Char.ofNat 36 :: c0 :: (cs ++ l2)) =
      (match m (String.mk (c0 :: cs)) with
      | some v => (substTemplate m l2).map (fun o => v.data ++ o)
      | none => .error (.keyError (String.mk (c0 :: cs)))) := by
  have hcsall : ∀ a ∈ cs, isIdCont a = true := List.all_eq_true.mp hcs
  have htake : (cs ++ l2).takeWhile isIdCont = cs := by
    rw [List.takeWhile_append_of_pos hcsall]
    cases hl : l2 with
    | nil => simp
    | cons d l2' =>
      have hd := hl2 d (by rw [hl]; rfl)
      simp [List.takeWhile_cons, hd]
  have hdrop : (cs ++ l2).dropWhile isIdCont = l2 := by
    rw [List.dropWhile_append_of_pos hcsall]
    cases hl : l2 with
    | nil => rfl
    | cons d l2' =>
      have hd := hl2 d (by rw [hl]; rfl)
      simp [List.dropWhile_cons, hd]
  have hc0ne : ¬ c0 = Char.ofNat 36 := by
    intro hh; rw [hh] at hstart; exact absurd hstart (by decide)
  have hc0nb : ¬ c0 = Char.ofNat 123 := by
    intro hh; rw [hh] at hstart; exact absurd hstart (by decide)
  rw [substTemplate.eq_def]
  simp only [if_true, eq_self_iff_true]
  simp [hc0ne, hc0nb, hstart, htake, hdrop]


def headerPre : List Char :=
  ("# AUTOGENERATED FILE - DO NOT EDIT\n# Generated by configure_reclient_cfgs.py\n# To edit:\n# Update reproxy_cfg_templates/").data

def headerPost : List Char :=
  ("\n# And run \x27gclient sync\x27 or \x27gclient runhooks\x27\n").data

/-- The substitution dictionary always defines `reproxy_cfg_template`. -/
theorem reproxyMapping_rct (w : World) (t inst : String) (proj : Option String) :
    reproxyMapping w t inst proj ("reproxy_cfg_template") = some t := by
  simp [reproxyMapping]

/-- The substitution dictionary is undefined outside its five fixed keys
(Python `KeyError` on lookup). -/
theorem reproxyMapping_unknown (w : World) (t inst : String) (proj : Option String)
    (k : String) (hk1 : k ≠ "rbe_instance") (hk2 : k ≠ "rbe_project")
    (hk3 : k ≠ "reproxy_cfg_template") (hk4 : k ≠ "depsscanner_address")
    (hk5 : k ≠ "auth_flags") :
    reproxyMapping w t inst proj k = none := by
  simp [reproxyMapping, hk1, hk2, hk3, hk4, hk5]

set_option maxRecDepth 40000 in
/-- C10.  If the named template file exists and contains `$name` for an
identifier `name` outside the five fixed keys (the placeholder being preceded
by dollar-free text and followed by a non-identifier character or the end),
`GenerateReproxyCfg` raises an uncaught `KeyError` carrying that name instead
of returning the `False` failure indicator — the error occurs inside
`Template.substitute`, before the output file is opened, so nothing is
written — and the exception escapes `main` as well. -/
theorem unknownPlaceholder_keyError (w : World) (t inst : String)
    (c1 : List Char) (c0 : Char) (cs l2 : List Char)
    (htm : w.templates t = some (String.mk (c1 ++ Char.ofNat 36 :: c0 :: (cs ++ l2))))
    (hc1 : Char.ofNat 36 ∉ c1)
    (hstart : isIdStart c0 = true) (hcs : cs.all isIdCont = true)
    (hl2 : ∀ d, l2.head? = some d → isIdCont d = false)
    (hk1 : String.mk (c0 :: cs) ≠ "rbe_instance")
    (hk2 : String.mk (c0 :: cs) ≠ "rbe_project")
    (hk3 : String.mk (c0 :: cs) ≠ "reproxy_cfg_template")
    (hk4 : String.mk (c0 :: cs) ≠ "depsscanner_address")
    (hk5 : String.mk (c0 :: cs) ≠ "auth_flags") :
    (∀ proj prior : Option String,
      GenerateReproxyCfg w t inst proj prior = .error (.keyError (String.mk (c0 :: cs)))) ∧
    (∀ args : Args, args.reproxy_cfg_template = some t → t ≠ "" →
      args.rbe_instance = some inst → inst ≠ "" →
      mainRun args w = .error (.keyError (String.mk (c0 :: cs)))) := by
  have hgen : ∀ proj prior : Option String,
      GenerateReproxyCfg w t inst proj prior
        = .error (.keyError (String.mk (c0 :: cs))) := by
    intro proj prior
    have hdata : (REPROXY_CFG_HEADER ++ String.mk (c1 ++ Char.ofNat 36 :: c0 :: (cs ++ l2))).data
        = headerPre ++ Char.ofNat 36 :: Char.ofNat 114 ::
            (("eproxy_cfg_template").data ++
              (headerPost ++ (c1 ++ Char.ofNat 36 :: c0 :: (cs ++ l2)))) := by
      rw [String.data_append]
      rw [show REPROXY_CFG_HEADER.data = headerPre ++ Char.ofNat 36 :: Char.ofNat 114 ::
        (("eproxy_cfg_template").data ++ headerPost) from by decide]
      show _ ++ (c1 ++ _) = _
      simp [List.append_assoc]
    have hscan : substTemplate (reproxyMapping w t inst proj)
        (REPROXY_CFG_HEADER ++ String.mk (c1 ++ Char.ofNat 36 :: c0 :: (cs ++ l2))).data
        = .error (.keyError (String.mk (c0 :: cs))) := by
      rw [hdata]
      rw [substTemplate_append_nodollar _ _ _ (by decide)]
      rw [substTemplate_named _ _ _ _ (by decide) (by decide)
        (by intro d hd
            rw [show (headerPost ++ (c1 ++ Char.ofNat 36 :: c0 :: (cs ++ l2))).head?
              = some (Char.ofNat 10) from rfl] at hd
            cases hd
            decide)]
      rw [show String.mk (Char.ofNat 114 :: ("eproxy_cfg_template").data)
        = "reproxy_cfg_template" from by decide]
      rw [reproxyMapping_rct]
      show (Except.map _ (Except.map _ (substTemplate _
        (headerPost ++ (c1 ++ Char.ofNat 36 :: c0 :: (cs ++ l2)))))) = _
      rw [show headerPost ++ (c1 ++ Char.ofNat 36 :: c0 :: (cs ++ l2))
        = (headerPost ++ c1) ++ Char.ofNat 36 :: c0 :: (cs ++ l2) from by
          simp [List.append_assoc]]
      rw [substTemplate_append_nodollar _ _ _ (by
        intro hm
        rcases List.mem_append.mp hm with h | h
        · exact absurd h (by decide)
        · exact hc1 h)]
      rw [substTemplate_named _ _ _ _ hstart hcs hl2]
      rw [reproxyMapping_unknown w t inst proj _ hk1 hk2 hk3 hk4 hk5]
      rfl
    unfold GenerateReproxyCfg
    rw [htm]
    show (match substTemplate (reproxyMapping w t inst proj)
        (REPROXY_CFG_HEADER ++ String.mk (c1 ++ Char.ofNat 36 :: c0 :: (cs ++ l2))).data with
      | Except.error e => Except.error e
      | Except.ok out => Except.ok (true, some (String.mk out))) = _
    rw [hscan]
  refine ⟨hgen, ?_⟩
  intro args hat hatne hai haine
  have hB : pyFalsy args.rbe_instance = false := by simp [hai, pyFalsy, haine]
  have hpf : pyFalsy (some t) = false := by simp [pyFalsy, hatne]
  unfold mainRun
  rw [if_neg (by simp [hB])]
  simp only [hat, hpf, hai]
  simp [hgen, pyFalsy, haine]

def w10 : World :=
  { wBase with
      templates := fun n => if n = "t.cfg" then some ("x=$unknown_key\n") else none }

/-- Witness for C10: a template containing `$unknown_key` raises
`KeyError("unknown_key")`. -/
theorem unknownPlaceholder_keyError_witness :
    GenerateReproxyCfg w10 ("t.cfg") ("inst") (some ("projX")) none
      = .error (.keyError ("unknown_key")) := by
  have h := (unknownPlaceholder_keyError w10 ("t.cfg") ("inst")
    (("x=").data) (Char.ofNat 117) (("nknown_key").data) (("\n").data)
    (by decide) (by decide) (by decide) (by decide)
    (by intro d hd; cases hd; decide)
    (by decide) (by decide) (by decide) (by decide) (by decide)).1 (some ("projX")) none
  rw [show String.mk (Char.ofNat 117 :: ("nknown_key").data) = "unknown_key" from by decide] at h
  exact h
